import Mathlib

/-!
# Verification of the Flickr uploader core

Shallow embedding of the upload orchestration core of the repository
(the full-featured variant in `src/unnamed/part_001`): sliding-window rate
limiter, exponential-backoff retry executor, TTL-cached album directory,
album resolver, fetch-and-stage checks and the upload orchestrator.

Timestamps are JS `Date.now()` values, modelled as `Int` (so that
`now - windowMs` may go negative exactly as in JS).  Remote calls are
modelled by passing their outcomes explicitly; shared mutable state
(`RATE_LIMIT.requests`, `albumsCache`, `albumsCacheTime`) is threaded
through explicitly.
-/

deriving instance DecidableEq for Except

/-! ## JS string helpers -/

/-- Does `pat` occur at the head of `s`?  (List-of-chars worker.) -/
def hasPrefixCharList : List Char → List Char → Bool
  | [], _ => true
  | _ :: _, [] => false
  | p :: ps, c :: cs => p == c && hasPrefixCharList ps cs

/-- Does `pat` occur anywhere in `s`?  (List-of-chars worker.) -/
def includesCharList : List Char → List Char → Bool
  | [], pat => pat.isEmpty
  | c :: cs, pat => hasPrefixCharList pat (c :: cs) || includesCharList cs pat

/-- Model of JS `String.prototype.includes`. -/
def strIncludes (s pat : String) : Bool :=
  includesCharList s.data pat.data

/-- Model of JS `String.prototype.toLowerCase` (character-wise lowering). -/
def jsToLowerCase (s : String) : String :=
  String.mk (s.data.map Char.toLower)

/-- Model of JS `String.prototype.trim`: strip leading and trailing
whitespace. -/
def jsTrim (s : String) : String :=
  String.mk (((s.data.dropWhile Char.isWhitespace).reverse.dropWhile Char.isWhitespace).reverse)

/-- Model of JS `String.prototype.startsWith`. -/
def jsStartsWith (s pat : String) : Bool :=
  hasPrefixCharList pat.data s.data

/-- Model of JS `String.prototype.endsWith`. -/
def jsEndsWith (s pat : String) : Bool :=
  hasPrefixCharList pat.data.reverse s.data.reverse

/-- Model of JS `s.toLowerCase().trim()`, the album-title normalisation used
throughout `part_001` (`a.title.toLowerCase().trim() === albumTitle.toLowerCase().trim()`). -/
def normalizeTitle (s : String) : String := jsTrim (jsToLowerCase s)

/-! ## Decimal rendering of numbers (JS template-literal interpolation) -/

/-- Fuelled worker for `natDigitsRev`; `fuel ≥ n` is always enough. -/
def natDigitsRevAux : Nat → Nat → List Char
  | 0, _ => []
  | fuel + 1, n =>
    if n = 0 then [] else Nat.digitChar (n % 10) :: natDigitsRevAux fuel (n / 10)

/-- Decimal digits of `n`, least significant first (empty for `0`). -/
def natDigitsRev (n : Nat) : List Char :=
  natDigitsRevAux n n

theorem natDigitsRevAux_fuel_irrel :
    ∀ f₁ f₂ n, n ≤ f₁ → n ≤ f₂ → natDigitsRevAux f₁ n = natDigitsRevAux f₂ n := by
  intro f₁
  induction f₁ using Nat.strong_induction_on with
  | _ f₁ ih =>
    intro f₂ n h₁ h₂
    cases n with
    | zero => cases f₁ <;> cases f₂ <;> rfl
    | succ m =>
      cases f₁ with
      | zero => omega
      | succ a =>
        cases f₂ with
        | zero => omega
        | succ b =>
          simp only [natDigitsRevAux, Nat.succ_ne_zero, if_false, List.cons.injEq, true_and]
          exact ih a (by omega) b ((m + 1) / 10) (by omega) (by omega)

/-- Unfolding rule for `natDigitsRev`. -/
theorem natDigitsRev_eq (n : Nat) :
    natDigitsRev n = if n = 0 then [] else Nat.digitChar (n % 10) :: natDigitsRev (n / 10) := by
  match n with
  | 0 => rfl
  | n + 1 =>
    simp only [natDigitsRev, natDigitsRevAux, Nat.succ_ne_zero, if_false]
    exact congrArg _ (natDigitsRevAux_fuel_irrel n ((n + 1) / 10) ((n + 1) / 10) (by omega) (by omega))

/-- Decimal rendering of a natural number, as JS `${n}` renders integers. -/
def natDecimal (n : Nat) : String :=
  if n = 0 then "0" else String.mk (natDigitsRev n).reverse

/-- Decimal rendering of an integer (JS `${i}`). -/
def intDecimal (i : Int) : String :=
  if i < 0 then "-" ++ natDecimal (-i).toNat else natDecimal i.toNat

example : natDecimal 0 = "0" := by decide
example : natDecimal 1700000000000 = "1700000000000" := by decide
example : intDecimal 404 = "404" := by decide

/-! ## Rate limiter (`checkRateLimit`, part_001 lines 23-43) -/

/-- `RATE_LIMIT.maxRequests`: Flickr allows 3600 queries per hour. -/
def RATE_LIMIT_maxRequests : Nat := 3600

/-- `RATE_LIMIT.windowMs`: one hour, in milliseconds. -/
def RATE_LIMIT_windowMs : Int := 60 * 60 * 1000

/-- `RATE_LIMIT.requests.filter(time => time > windowStart)` with
`windowStart = now - RATE_LIMIT.windowMs`. -/
def pruneRequests (requests : List Int) (now : Int) : List Int :=
  requests.filter (fun time => now - RATE_LIMIT_windowMs < time)

/-- `checkRateLimit()`: prune the shared budget, reject if the pruned count
reached the quota (leaving the pruned list in place, without recording the
attempt), otherwise push `now`.  Returns the new `RATE_LIMIT.requests`
together with the outcome. -/
def checkRateLimit (requests : List Int) (now : Int) : List Int × Except String Unit :=
  let pruned := pruneRequests requests now
  if RATE_LIMIT_maxRequests ≤ pruned.length then
    (pruned, Except.error "Rate limit exceeded. Please wait before making more requests.")
  else
    (pruned ++ [now], Except.ok ())

/-! ## Retry executor (`retryWithBackoff`, part_001 lines 45-73) -/

/-- The terminal-error test of part_001 lines 54-56: messages mentioning
invalid OAuth credentials, an invalid API key or permission denial are
never retried. -/
def isTerminalError (msg : String) : Bool :=
  strIncludes msg "Invalid OAuth" || strIncludes msg "Invalid API key" ||
    strIncludes msg "Permission denied"

/-- `Math.min(1000 * Math.pow(2, attempt - 1), 30000)` (part_001 line 65). -/
def backoffBaseDelay (attempt : Nat) : Nat :=
  min (1000 * 2 ^ (attempt - 1)) 30000

/-- Trace of one `retryWithBackoff` run: final outcome, how many times the
operation was invoked, and the backoff delays (base + jitter) awaited
between consecutive attempts. -/
structure RetryTrace (α : Type) where
  result : Except String α
  invocations : Nat
  delays : List Nat
deriving Repr, DecidableEq

/-- The `for (attempt = 1; attempt <= maxAttempts; attempt++)` loop of
`retryWithBackoff`.  `outcomes i` is what the `i`-th invocation of the
operation produces; `jitter i` models the `Math.random() * 1000` summand
drawn before the wait that follows attempt `i`.  The fuel argument equals
`maxAttempts - attempt + 1`; exhausting it corresponds to the loop falling
through (unreachable for `maxAttempts ≥ 1`). -/
def retryLoop {α : Type} (outcomes : Nat → Except String α) (jitter : Nat → Nat)
    (maxAttempts : Nat) : Nat → Nat → RetryTrace α
  | _, 0 => ⟨Except.error "retry loop exhausted", 0, []⟩
  | attempt, fuel + 1 =>
    match outcomes attempt with
    | Except.ok v => ⟨Except.ok v, 1, []⟩
    | Except.error msg =>
      if isTerminalError msg then ⟨Except.error msg, 1, []⟩
      else if attempt = maxAttempts then
        ⟨Except.error ("Operation failed after " ++ natDecimal maxAttempts ++ " attempts: " ++ msg),
          1, []⟩
      else
        let rest := retryLoop outcomes jitter maxAttempts (attempt + 1) fuel
        ⟨rest.result, rest.invocations + 1, (backoffBaseDelay attempt + jitter attempt) :: rest.delays⟩

/-- `retryWithBackoff(operation, maxAttempts)` (the source defaults
`maxAttempts` to 3). -/
def retryWithBackoff {α : Type} (outcomes : Nat → Except String α) (jitter : Nat → Nat)
    (maxAttempts : Nat) : RetryTrace α :=
  retryLoop outcomes jitter maxAttempts 1 maxAttempts

example :
    retryWithBackoff (fun _ => (Except.error "Permission denied" : Except String Nat))
      (fun _ => 0) 3 = ⟨Except.error "Permission denied", 1, []⟩ := by
  rfl

example :
    retryWithBackoff (fun _ => (Except.error "boom" : Except String Nat))
      (fun _ => 7) 3 =
      ⟨Except.error "Operation failed after 3 attempts: boom", 3, [1007, 2007]⟩ := by
  rfl

/-! ## Album directory (`getAlbums`, part_001 lines 75-112) -/

/-- One entry of the album directory: the remote album record mapped to
`{id: set.id, title: set.title._content}`. -/
structure Album where
  id : String
  title : String
deriving DecidableEq, Repr

/-- Outcome of one (rate-limited, retried) `flickr.photosets.getList`
call: a successful response holding the mapped album records, a response
without `photosets.photoset` (treated as an empty album set), or a thrown
error (after the retry executor gave up or a terminal error surfaced). -/
inductive ListingOutcome where
  | ok (albums : List Album)
  | malformed
  | failure (msg : String)
deriving DecidableEq, Repr

/-- The module-level mutable state of part_001 that `getAlbums` touches:
`RATE_LIMIT.requests`, `albumsCache` (null or an array) and
`albumsCacheTime`. -/
structure ApiState where
  requests : List Int
  albumsCache : Option (List Album)
  albumsCacheTime : Int
deriving DecidableEq, Repr

/-- `CACHE_DURATION = 5 * 60 * 1000` (5 minutes). -/
def CACHE_DURATION : Int := 5 * 60 * 1000

/-- The refresh path of `getAlbums` (its try/catch body): rate-limit check,
then the retried listing call; on success replace the cache and stamp
`albumsCacheTime = now`; on any failure return the last good cache (or the
empty list when none) without touching the cache. -/
def getAlbumsRefresh (st : ApiState) (now : Int) (listing : ListingOutcome) :
    List Album × ApiState :=
  match checkRateLimit st.requests now with
  | (reqs, Except.error _) => (st.albumsCache.getD [], { st with requests := reqs })
  | (reqs, Except.ok ()) =>
    match listing with
    | ListingOutcome.failure _ => (st.albumsCache.getD [], { st with requests := reqs })
    | ListingOutcome.malformed =>
      ([], { requests := reqs, albumsCache := some [], albumsCacheTime := now })
    | ListingOutcome.ok albums =>
      (albums, { requests := reqs, albumsCache := some albums, albumsCacheTime := now })

/-- `getAlbums(forceRefresh = false)`: return the cache when it is present,
not force-refreshed and younger than `CACHE_DURATION`; otherwise refresh. -/
def getAlbums (st : ApiState) (now : Int) (forceRefresh : Bool) (listing : ListingOutcome) :
    List Album × ApiState :=
  match st.albumsCache with
  | some cached =>
    if forceRefresh = false ∧ now - st.albumsCacheTime < CACHE_DURATION then (cached, st)
    else getAlbumsRefresh st now listing
  | none => getAlbumsRefresh st now listing

/-! ## Album resolver (`findOrCreateAlbum`, part_001 lines 114-151) -/

/-- The search predicate of part_001 line 120-122:
`a.title.toLowerCase().trim() === albumTitle.toLowerCase().trim()`. -/
def albumMatches (albumTitle : String) (a : Album) : Bool :=
  normalizeTitle a.title == normalizeTitle albumTitle

/-- Outcome of one (rate-limited, retried) `flickr.photosets.create` call. -/
inductive CreateOutcome where
  | ok (newId : String)
  | failure (msg : String)
deriving DecidableEq, Repr

/-- Process + remote state threaded through the orchestrator: the shared
module-level state of part_001 plus the album list held by the remote
service (which a successful `flickr.photosets.create` extends). -/
structure World where
  now : Int
  requests : List Int
  albumsCache : Option (List Album)
  albumsCacheTime : Int
  remoteAlbums : List Album
deriving DecidableEq, Repr

/-- The `ApiState` portion of a `World`. -/
def World.api (w : World) : ApiState :=
  ⟨w.requests, w.albumsCache, w.albumsCacheTime⟩

/-- Replace the `ApiState` portion of a `World`. -/
def World.withApi (w : World) (st : ApiState) : World :=
  { w with requests := st.requests, albumsCache := st.albumsCache,
           albumsCacheTime := st.albumsCacheTime }

/-- A remote listing call observed through `mkListing`: it fails with the
given message, or returns the current album list of the service. -/
def mkListing (remote : List Album) : Option String → ListingOutcome
  | some msg => ListingOutcome.failure msg
  | none => ListingOutcome.ok remote

/-- Result of `findOrCreateAlbum`: the returned id (or thrown wrapped
error), the updated state, and how many album-creation calls were issued. -/
structure ResolveOut where
  result : Except String String
  world : World
  createCalls : Nat
deriving DecidableEq, Repr

/-- `findOrCreateAlbum(albumTitle, primaryPhotoId)` (part_001 lines
114-151): fetch the albums (not forced), search case-insensitively and
trimmed; on a hit return its id with no creation call; otherwise
rate-limit-check, issue the retried creation call, null the cache and
return the new id; any thrown error is wrapped as
`Album operation failed: …`.  A successful creation also extends the
remote album list with the new `{id, title}` record. -/
def findOrCreateAlbum (w : World) (albumTitle : String) (_primaryPhotoId : String)
    (listFails : Option String) (create : CreateOutcome) : ResolveOut :=
  let res := getAlbums w.api w.now false (mkListing w.remoteAlbums listFails)
  let w1 := w.withApi res.2
  match res.1.find? (albumMatches albumTitle) with
  | some a => ⟨Except.ok a.id, w1, 0⟩
  | none =>
    match checkRateLimit w1.requests w.now with
    | (reqs, Except.error msg) =>
      ⟨Except.error ("Album operation failed: " ++ msg), { w1 with requests := reqs }, 0⟩
    | (reqs, Except.ok ()) =>
      match create with
      | CreateOutcome.failure msg =>
        ⟨Except.error ("Album operation failed: " ++ msg), { w1 with requests := reqs }, 1⟩
      | CreateOutcome.ok newId =>
        ⟨Except.ok newId,
          { w1 with requests := reqs, albumsCache := none,
                    remoteAlbums := w1.remoteAlbums ++ [⟨newId, albumTitle⟩] }, 1⟩

/-! ## Fetch-and-stage (`uploadPhotoFromUrl`, part_001 lines 158-198) -/

/-- The observable part of the `fetch` response used by the staging phase:
`response.ok`, `response.status`, `response.statusText`,
`response.headers.get("content-type")` and the downloaded byte length. -/
structure FetchResponse where
  ok : Bool
  status : Nat
  statusText : String
  contentType : Option String
  bodyLen : Nat
deriving DecidableEq, Repr

/-- `200 * 1024 * 1024`, the download size limit (part_001 line 189). -/
def MAX_FILE_SIZE : Nat := 200 * 1024 * 1024

/-- The staging checks of part_001 lines 173-191, in source order:
non-ok status, absent/non-image content type, empty download, oversize
download. -/
def stageCheck (resp : FetchResponse) : Except String Unit :=
  if resp.ok = false then
    Except.error ("Failed to fetch image: " ++ natDecimal resp.status ++ " " ++ resp.statusText)
  else
    match resp.contentType with
    | none => Except.error "Invalid content type: null. Expected image."
    | some ct =>
      if jsStartsWith ct "image/" = false then
        Except.error ("Invalid content type: " ++ ct ++ ". Expected image.")
      else if resp.bodyLen = 0 then
        Except.error "Downloaded file is empty"
      else if MAX_FILE_SIZE < resp.bodyLen then
        Except.error "File too large. Maximum size is 200MB."
      else
        Except.ok ()

/-- `title.endsWith(".jpg") ? title : title + ".jpg"` (part_001 line 194). -/
def fileName (title : String) : String :=
  if jsEndsWith title ".jpg" then title else title ++ ".jpg"

/-- `join(tmpdir(), "flickr_" + Date.now() + "_" + fileName)`
(part_001 line 195). -/
def tempFilePath (tmpDir : String) (now : Int) (title : String) : String :=
  tmpDir ++ "/" ++ "flickr_" ++ intDecimal now ++ "_" ++ fileName title

/-! ## Upload orchestrator (`uploadPhotoFromUrl`, part_001 lines 153-266) -/

/-- The success value of `uploadPhotoFromUrl` (part_001 lines 243-250,
without the wall-clock `uploadedAt` string). -/
structure UploadSuccess where
  photoId : String
  albumId : String
  albumTitle : String
  isPrivate : Bool
deriving DecidableEq, Repr

/-- Outcomes of the effectful collaborators of one `uploadPhotoFromUrl`
run, in the order the code consults them.  `addResult` and `unlinkResult`
exist only to witness that the add-to-album call and the temp-file
deletion have their failures swallowed: the code never lets them alter the
control flow. -/
structure UploadEnv where
  resp : FetchResponse
  writeResult : Except String Unit
  uploadResult : Except String String
  listFails1 : Option String
  create : CreateOutcome
  listFails2 : Option String
  addResult : Except String Unit
  unlinkResult : Except String Unit
deriving DecidableEq, Repr

/-- Observable trace of one `uploadPhotoFromUrl` run: result, final state,
the staged temp path (if staging reached the write), and how many
photo-upload, album-creation, add-photo-to-album and `unlink` operations
were issued. -/
structure RunOutcome where
  result : Except String UploadSuccess
  world : World
  tempPath : Option String
  uploadCalls : Nat
  createCalls : Nat
  addPhotoCalls : Nat
  unlinkCalls : Nat
deriving DecidableEq, Repr

/-- `uploadPhotoFromUrl(imageUrl, title, albumTitle)` (part_001 lines
153-266): stage (checks, then derive the file name and temp path and write
the bytes), retried private upload, `findOrCreateAlbum`, re-fetch the album
list and add the photo to the album only when an album with the resolved id
and matching title is in that list (both the rate-limit check and the add
call being swallowed on failure), and a `finally` block that unlinks the
temp file exactly once whenever the path was assigned, swallowing deletion
failures. -/
def uploadPhotoFromUrl (w : World) (tmpDir : String) (env : UploadEnv)
    (title albumTitle : String) : RunOutcome :=
  match stageCheck env.resp with
  | Except.error msg =>
    ⟨Except.error msg, w, none, 0, 0, 0, 0⟩
  | Except.ok () =>
    let path := tempFilePath tmpDir w.now title
    match env.writeResult with
    | Except.error msg => ⟨Except.error msg, w, some path, 0, 0, 0, 1⟩
    | Except.ok () =>
      match env.uploadResult with
      | Except.error msg => ⟨Except.error msg, w, some path, 1, 0, 0, 1⟩
      | Except.ok photoId =>
        let r := findOrCreateAlbum w albumTitle photoId env.listFails1 env.create
        match r.result with
        | Except.error msg =>
          ⟨Except.error msg, r.world, some path, 1, r.createCalls, 0, 1⟩
        | Except.ok albumId =>
          let w2 := r.world
          let res := getAlbums w2.api w2.now false (mkListing w2.remoteAlbums env.listFails2)
          let w3 := w2.withApi res.2
          let albumExisted := res.1.any (fun a => a.id == albumId && albumMatches albumTitle a)
          if albumExisted then
            match checkRateLimit w3.requests w3.now with
            | (reqs, Except.error _) =>
              ⟨Except.ok ⟨photoId, albumId, albumTitle, true⟩,
                { w3 with requests := reqs }, some path, 1, r.createCalls, 0, 1⟩
            | (reqs, Except.ok ()) =>
              ⟨Except.ok ⟨photoId, albumId, albumTitle, true⟩,
                { w3 with requests := reqs }, some path, 1, r.createCalls, 1, 1⟩
          else
            ⟨Except.ok ⟨photoId, albumId, albumTitle, true⟩,
              w3, some path, 1, r.createCalls, 0, 1⟩

/-! ## Helper lemmas -/

theorem hasPrefixCharList_append (p : List Char) :
    ∀ q r, hasPrefixCharList p q = true → hasPrefixCharList p (q ++ r) = true := by
  induction p with
  | nil => intro q r _; rfl
  | cons c cs ih =>
    intro q r h
    cases q with
    | nil => simp [hasPrefixCharList] at h
    | cons d ds =>
      simp only [hasPrefixCharList, Bool.and_eq_true] at h ⊢
      exact ⟨h.1, ih ds r h.2⟩

theorem includesCharList_of_headMatch (l p : List Char)
    (h : hasPrefixCharList p l = true) : includesCharList l p = true := by
  cases l with
  | nil =>
    cases p with
    | nil => rfl
    | cons c cs => simp [hasPrefixCharList] at h
  | cons c cs => simp [includesCharList, h]

theorem natDigitsRev_eq_nil (n : Nat) : natDigitsRev n = [] ↔ n = 0 := by
  rw [natDigitsRev_eq]
  by_cases h : n = 0 <;> simp [h]

theorem digitChar_injOn : ∀ a, a < 10 → ∀ b, b < 10 → Nat.digitChar a = Nat.digitChar b → a = b := by
  decide

theorem natDigitsRev_inj : ∀ n m, natDigitsRev n = natDigitsRev m → n = m := by
  intro n
  induction n using Nat.strong_induction_on with
  | _ n ih =>
    intro m h
    by_cases hn : n = 0
    · subst hn
      have : natDigitsRev m = [] := by
        rw [← h]; rfl
      exact ((natDigitsRev_eq_nil m).mp this).symm
    · by_cases hm : m = 0
      · subst hm
        have : natDigitsRev n = [] := by rw [h]; rfl
        exact absurd ((natDigitsRev_eq_nil n).mp this) hn
      · rw [natDigitsRev_eq n, natDigitsRev_eq m] at h
        simp only [hn, hm, if_false, List.cons.injEq] at h
        have h1 : n % 10 = m % 10 :=
          digitChar_injOn _ (Nat.mod_lt _ (by decide)) _ (Nat.mod_lt _ (by decide)) h.1
        have h2 : n / 10 = m / 10 :=
          ih (n / 10) (Nat.div_lt_self (Nat.pos_of_ne_zero hn) (by decide)) (m / 10) h.2
        omega

theorem natDecimal_inj : ∀ n m, natDecimal n = natDecimal m → n = m := by
  have key : ∀ m, m ≠ 0 → ¬("0" = String.mk (natDigitsRev m).reverse) := by
    intro m hm hcontra
    have hdata : ['0'] = (natDigitsRev m).reverse := congrArg String.data hcontra
    have hrev : natDigitsRev m = ['0'] := by
      have := congrArg List.reverse hdata
      simpa using this.symm
    rw [natDigitsRev_eq] at hrev
    simp only [hm, if_false, List.cons.injEq] at hrev
    have h1 : m % 10 = 0 :=
      digitChar_injOn _ (Nat.mod_lt _ (by decide)) 0 (by decide) hrev.1
    have h2 : m / 10 = 0 := (natDigitsRev_eq_nil _).mp hrev.2
    omega
  intro n m h
  unfold natDecimal at h
  by_cases hn : n = 0 <;> by_cases hm : m = 0
  · omega
  · rw [if_pos hn, if_neg hm] at h
    exact absurd h (key m hm)
  · rw [if_neg hn, if_pos hm] at h
    exact absurd h.symm (key n hn)
  · rw [if_neg hn, if_neg hm] at h
    have hdata : (natDigitsRev n).reverse = (natDigitsRev m).reverse := congrArg String.data h
    have : natDigitsRev n = natDigitsRev m := by
      have := congrArg List.reverse hdata
      simpa using this
    exact natDigitsRev_inj n m this

theorem intDecimal_inj_nonneg (i j : Int) (hi : 0 ≤ i) (hj : 0 ≤ j)
    (h : intDecimal i = intDecimal j) : i = j := by
  unfold intDecimal at h
  rw [if_neg (by omega), if_neg (by omega)] at h
  have := natDecimal_inj _ _ h
  omega

theorem string_append_cancel_right (a b s : String) (h : a ++ s = b ++ s) : a = b := by
  have hd : a.data ++ s.data = b.data ++ s.data := by
    have := congrArg String.data h
    simpa [String.data_append] using this
  cases a
  cases b
  exact congrArg String.mk (List.append_cancel_right hd)

theorem string_append_cancel_left (s a b : String) (h : s ++ a = s ++ b) : a = b := by
  have hd : s.data ++ a.data = s.data ++ b.data := by
    have := congrArg String.data h
    simpa [String.data_append] using this
  cases a
  cases b
  exact congrArg String.mk (List.append_cancel_left hd)

/-! ## Claim C4: rate limiter behaviour -/

/-- C4: `checkRateLimit` first prunes the shared budget to timestamps newer
than `now` minus the one-hour window; if the pruned count is at least the
quota of 3600 it fails with the rate-limit-exceeded error without recording
the attempt, and otherwise appends `now` and succeeds.  Consequently, after
exactly 3600 recorded calls within the window the next call fails, and once
every recorded call is at least one window old, capacity is restored. -/
theorem checkRateLimit_spec :
    (∀ requests now, RATE_LIMIT_maxRequests ≤ (pruneRequests requests now).length →
      checkRateLimit requests now =
        (pruneRequests requests now,
          Except.error "Rate limit exceeded. Please wait before making more requests.")) ∧
    (∀ requests now, (pruneRequests requests now).length < RATE_LIMIT_maxRequests →
      checkRateLimit requests now = (pruneRequests requests now ++ [now], Except.ok ())) ∧
    (∀ (requests : List Int) (now : Int), requests.length = 3600 →
      (∀ t ∈ requests, now - RATE_LIMIT_windowMs < t) →
      checkRateLimit requests now =
        (requests, Except.error "Rate limit exceeded. Please wait before making more requests.")) ∧
    (∀ (requests : List Int) (now : Int), (∀ t ∈ requests, t ≤ now - RATE_LIMIT_windowMs) →
      checkRateLimit requests now = ([now], Except.ok ())) := by
  refine ⟨?_, ?_, ?_, ?_⟩
  · intro requests now h
    simp only [checkRateLimit]
    rw [if_pos h]
  · intro requests now h
    simp only [checkRateLimit]
    rw [if_neg (by omega)]
  · intro requests now hlen hall
    have hp : pruneRequests requests now = requests :=
      List.filter_eq_self.mpr fun a ha => by
        simpa using hall a ha
    simp only [checkRateLimit, hp]
    rw [if_pos (by rw [hlen]; decide)]
  · intro requests now hall
    have hp : pruneRequests requests now = [] :=
      List.filter_eq_nil_iff.mpr fun a ha => by
        have := hall a ha
        simp only [decide_eq_true_eq]
        omega
    simp only [checkRateLimit, hp]
    rw [if_neg (by decide)]
    rfl

/-- Witness for `checkRateLimit_spec`: with 3600 in-window timestamps the
next call is rejected; once they are a full window old, it is accepted. -/
theorem checkRateLimit_spec_witness :
    checkRateLimit (List.replicate 3600 (0 : Int)) 0 =
      (List.replicate 3600 (0 : Int),
        Except.error "Rate limit exceeded. Please wait before making more requests.") ∧
    checkRateLimit (List.replicate 3600 (0 : Int)) 3600000 = ([3600000], Except.ok ()) :=
  ⟨checkRateLimit_spec.2.2.1 (List.replicate 3600 (0 : Int)) 0 (by rw [List.length_replicate])
      (fun t ht => by
        have : t = 0 := List.eq_of_mem_replicate ht
        subst this
        decide),
    checkRateLimit_spec.2.2.2 (List.replicate 3600 (0 : Int)) 3600000
      (fun t ht => by
        have : t = 0 := List.eq_of_mem_replicate ht
        subst this
        decide)⟩

/-! ## Claim C5: terminal errors are never retried -/

/-- C5: whenever the first invocation of the operation fails with a message
indicating invalid OAuth credentials, an invalid API key or permission
denial, `retryWithBackoff` invokes the operation exactly once, rethrows
that error unchanged, and performs no backoff wait. -/
theorem retryWithBackoff_terminal_single_attempt :
    ∀ (α : Type) (outcomes : Nat → Except String α) (jitter : Nat → Nat) (maxAttempts : Nat)
      (msg : String), 1 ≤ maxAttempts → outcomes 1 = Except.error msg →
      isTerminalError msg = true →
      retryWithBackoff outcomes jitter maxAttempts = ⟨Except.error msg, 1, []⟩ := by
  intro α outcomes jitter maxAttempts msg hmax hout hterm
  cases maxAttempts with
  | zero => omega
  | succ k =>
    simp [retryWithBackoff, retryLoop, hout, hterm]

/-- Witness for `retryWithBackoff_terminal_single_attempt` at a
permission-denied error with the default three attempts. -/
theorem retryWithBackoff_terminal_single_attempt_witness :
    retryWithBackoff (fun _ => (Except.error "Permission denied" : Except String String))
      (fun _ => 0) 3 = ⟨Except.error "Permission denied", 1, []⟩ :=
  retryWithBackoff_terminal_single_attempt String _ _ 3 "Permission denied"
    (by decide) rfl (by decide)

/-! ## Claim C6: backoff schedule and exhaustion -/

theorem retryLoop_all_transient (α : Type) (outcomes : Nat → Except String α)
    (jitter : Nat → Nat) (maxAttempts : Nat) (msgs : Nat → String) :
    ∀ (fuel attempt : Nat), attempt + fuel = maxAttempts + 1 → 1 ≤ fuel →
      (∀ i, attempt ≤ i → i ≤ maxAttempts →
        outcomes i = Except.error (msgs i) ∧ isTerminalError (msgs i) = false) →
      retryLoop outcomes jitter maxAttempts attempt fuel =
        ⟨Except.error
            ("Operation failed after " ++ natDecimal maxAttempts ++ " attempts: " ++ msgs maxAttempts),
          fuel,
          (List.range (fuel - 1)).map (fun i => backoffBaseDelay (attempt + i) + jitter (attempt + i))⟩ := by
  intro fuel
  induction fuel with
  | zero => intro attempt _ h2 _; omega
  | succ f ih =>
    intro attempt h1 _ h3
    obtain ⟨hout, hterm⟩ := h3 attempt (le_refl _) (by omega)
    by_cases hlast : attempt = maxAttempts
    · have hf : f = 0 := by omega
      subst hf
      subst hlast
      simp [retryLoop, hout, hterm]
    · have hf1 : 1 ≤ f := by omega
      have hrec := ih (attempt + 1) (by omega) hf1 (fun i hi1 hi2 => h3 i (by omega) hi2)
      simp only [retryLoop, hout, hterm, Bool.false_eq_true, if_false, hlast, hrec]
      refine congrArg _ ?_
      obtain ⟨g, rfl⟩ : ∃ g, f = g + 1 := ⟨f - 1, by omega⟩
      simp only [Nat.add_sub_cancel, List.range_succ_eq_map, List.map_cons, List.map_map,
        List.cons.injEq]
      constructor
      · simp
      · refine List.map_congr_left fun i _ => ?_
        simp only [Function.comp]
        have : attempt + 1 + i = attempt + (i + 1) := by omega
        rw [this]

/-- C6: when every attempt fails non-terminally, `retryWithBackoff`
invokes the operation exactly `maxAttempts` times, waits
`min(1000 * 2^(attempt-1), 30000)` milliseconds plus the drawn jitter
between consecutive attempts, and finally fails with the
operation-failed error wrapping the message of the last cause; when the jitter
draws stay below 1000 (as `Math.random() * 1000` does), every wait lies
within 1000 ms above its base delay. -/
theorem retryWithBackoff_transient_exhaustion :
    (∀ (α : Type) (outcomes : Nat → Except String α) (jitter : Nat → Nat)
      (maxAttempts : Nat) (msgs : Nat → String), 1 ≤ maxAttempts →
      (∀ i, 1 ≤ i → i ≤ maxAttempts →
        outcomes i = Except.error (msgs i) ∧ isTerminalError (msgs i) = false) →
      retryWithBackoff outcomes jitter maxAttempts =
        ⟨Except.error
            ("Operation failed after " ++ natDecimal maxAttempts ++ " attempts: " ++ msgs maxAttempts),
          maxAttempts,
          (List.range (maxAttempts - 1)).map
            (fun i => min (1000 * 2 ^ i) 30000 + jitter (i + 1))⟩) ∧
    (∀ (α : Type) (outcomes : Nat → Except String α) (jitter : Nat → Nat)
      (maxAttempts : Nat) (msgs : Nat → String), 1 ≤ maxAttempts →
      (∀ i, 1 ≤ i → i ≤ maxAttempts →
        outcomes i = Except.error (msgs i) ∧ isTerminalError (msgs i) = false) →
      (∀ b, jitter b < 1000) →
      ∀ d ∈ (retryWithBackoff outcomes jitter maxAttempts).delays,
        ∃ a, 1 ≤ a ∧ a < maxAttempts ∧
          min (1000 * 2 ^ (a - 1)) 30000 ≤ d ∧ d < min (1000 * 2 ^ (a - 1)) 30000 + 1000) := by
  have main : ∀ (α : Type) (outcomes : Nat → Except String α) (jitter : Nat → Nat)
      (maxAttempts : Nat) (msgs : Nat → String), 1 ≤ maxAttempts →
      (∀ i, 1 ≤ i → i ≤ maxAttempts →
        outcomes i = Except.error (msgs i) ∧ isTerminalError (msgs i) = false) →
      retryWithBackoff outcomes jitter maxAttempts =
        ⟨Except.error
            ("Operation failed after " ++ natDecimal maxAttempts ++ " attempts: " ++ msgs maxAttempts),
          maxAttempts,
          (List.range (maxAttempts - 1)).map
            (fun i => min (1000 * 2 ^ i) 30000 + jitter (i + 1))⟩ := by
    intro α outcomes jitter maxAttempts msgs hmax h
    have := retryLoop_all_transient α outcomes jitter maxAttempts msgs maxAttempts 1
      (by omega) hmax (fun i hi1 hi2 => h i hi1 hi2)
    rw [retryWithBackoff, this]
    refine congrArg _ ?_
    refine List.map_congr_left fun i _ => ?_
    simp only [backoffBaseDelay]
    have h1 : 1 + i - 1 = i := by omega
    have h2 : 1 + i = i + 1 := by omega
    rw [h1, h2]
  refine ⟨main, ?_⟩
  intro α outcomes jitter maxAttempts msgs hmax h hj d hd
  rw [main α outcomes jitter maxAttempts msgs hmax h] at hd
  simp only [List.mem_map, List.mem_range] at hd
  obtain ⟨i, hi, rfl⟩ := hd
  refine ⟨i + 1, by omega, by omega, ?_, ?_⟩
  · simp only [Nat.add_sub_cancel]
    omega
  · simp only [Nat.add_sub_cancel]
    have := hj (i + 1)
    omega

/-- Witness for `retryWithBackoff_transient_exhaustion`: three transient
failures with jitter 7 give delays 1007 and 2007 and the wrapped final
error. -/
theorem retryWithBackoff_transient_exhaustion_witness :
    retryWithBackoff (fun _ => (Except.error "boom" : Except String Nat)) (fun _ => 7) 3 =
      ⟨Except.error "Operation failed after 3 attempts: boom", 3, [1007, 2007]⟩ :=
  (retryWithBackoff_transient_exhaustion.1 Nat (fun _ => Except.error "boom") (fun _ => 7) 3
      (fun _ => "boom") (by decide)
      (fun _ _ _ => ⟨rfl, show isTerminalError "boom" = false by decide⟩)).trans (by decide)

/-! ## Claim C2: case-insensitive, trim-insensitive album resolution -/

/-- C2: whenever the fetched album listing contains an album whose title
matches the requested title case-insensitively after trimming,
`findOrCreateAlbum` returns the id of that album and issues no album-creation
call; and two titles equal after lowercasing and trimming always resolve to
the same result (same id, same number of creation calls). -/
theorem findOrCreateAlbum_case_insensitive :
    (∀ (w : World) (t p : String) (listFails : Option String) (create : CreateOutcome) (a : Album),
      (getAlbums w.api w.now false (mkListing w.remoteAlbums listFails)).1.find?
          (albumMatches t) = some a →
      (findOrCreateAlbum w t p listFails create).result = Except.ok a.id ∧
      (findOrCreateAlbum w t p listFails create).createCalls = 0) ∧
    (∀ (w : World) (t₁ t₂ p : String) (listFails : Option String) (create : CreateOutcome),
      normalizeTitle t₁ = normalizeTitle t₂ →
      (findOrCreateAlbum w t₁ p listFails create).result =
        (findOrCreateAlbum w t₂ p listFails create).result ∧
      (findOrCreateAlbum w t₁ p listFails create).createCalls =
        (findOrCreateAlbum w t₂ p listFails create).createCalls) := by
  constructor
  · intro w t p listFails create a hfind
    simp [findOrCreateAlbum, hfind]
  · intro w t₁ t₂ p listFails create h
    have hm : albumMatches t₁ = albumMatches t₂ := by
      funext a
      simp [albumMatches, h]
    simp only [findOrCreateAlbum, hm]
    cases (getAlbums w.api w.now false (mkListing w.remoteAlbums listFails)).1.find?
        (albumMatches t₂) with
    | some a => exact ⟨rfl, rfl⟩
    | none =>
      cases checkRateLimit
          (w.withApi (getAlbums w.api w.now false (mkListing w.remoteAlbums listFails)).2).requests
          w.now with
      | mk reqs outcome =>
        cases outcome with
        | error msg => exact ⟨rfl, rfl⟩
        | ok u =>
          cases create with
          | failure msg => exact ⟨rfl, rfl⟩
          | ok newId => exact ⟨rfl, rfl⟩

/-- Witness for `findOrCreateAlbum_case_insensitive`: with a fresh cache
holding an album titled `" Trip "`, both `" Trip "` and `"trip"` resolve to
its id `"A1"` with zero creation calls. -/
theorem findOrCreateAlbum_case_insensitive_witness :
    (findOrCreateAlbum ⟨0, [], some [⟨"A1", " Trip "⟩], 0, []⟩ "trip" "p7" none
        (CreateOutcome.failure "down")).result = Except.ok "A1" ∧
    (findOrCreateAlbum ⟨0, [], some [⟨"A1", " Trip "⟩], 0, []⟩ "trip" "p7" none
        (CreateOutcome.failure "down")).createCalls = 0 ∧
    (findOrCreateAlbum ⟨0, [], some [⟨"A1", " Trip "⟩], 0, []⟩ " Trip " "p7" none
        (CreateOutcome.failure "down")).result =
      (findOrCreateAlbum ⟨0, [], some [⟨"A1", " Trip "⟩], 0, []⟩ "trip" "p7" none
        (CreateOutcome.failure "down")).result :=
  ⟨(findOrCreateAlbum_case_insensitive.1 ⟨0, [], some [⟨"A1", " Trip "⟩], 0, []⟩ "trip" "p7"
      none (CreateOutcome.failure "down") ⟨"A1", " Trip "⟩ (by decide)).1,
    (findOrCreateAlbum_case_insensitive.1 ⟨0, [], some [⟨"A1", " Trip "⟩], 0, []⟩ "trip" "p7"
      none (CreateOutcome.failure "down") ⟨"A1", " Trip "⟩ (by decide)).2,
    (findOrCreateAlbum_case_insensitive.2 ⟨0, [], some [⟨"A1", " Trip "⟩], 0, []⟩ " Trip "
      "trip" "p7" none (CreateOutcome.failure "down") (by decide)).1⟩

/-! ## Claim C8: album listing is cached and failure-absorbing -/

/-- C8: `getAlbums` returns the cached list untouched when not forced and
the cache is younger than its TTL, and on a failing listing it always
returns the last good cache (the empty list when none exists) — the
listing error is never propagated, whatever its message. -/
theorem getAlbums_cache_and_degradation :
    (∀ (st : ApiState) (now : Int) (listing : ListingOutcome) (cached : List Album),
      st.albumsCache = some cached → now - st.albumsCacheTime < CACHE_DURATION →
      getAlbums st now false listing = (cached, st)) ∧
    (∀ (st : ApiState) (now : Int) (forceRefresh : Bool) (msg : String),
      (getAlbums st now forceRefresh (ListingOutcome.failure msg)).1 =
        st.albumsCache.getD []) := by
  constructor
  · intro st now listing cached hsome hfresh
    simp [getAlbums, hsome, hfresh]
  · intro st now forceRefresh msg
    cases hsome : st.albumsCache with
    | none =>
      simp only [getAlbums, hsome, getAlbumsRefresh, checkRateLimit]
      split
      · simp [hsome]
      · simp [hsome]
    | some cached =>
      simp only [getAlbums, hsome]
      split
      · simp [hsome]
      · simp only [getAlbumsRefresh, checkRateLimit]
        split
        · simp [hsome]
        · simp [hsome]

/-- Witness for `getAlbums_cache_and_degradation`: a fresh cache is served
without touching the state, and with no cache a failing listing degrades to
the empty list. -/
theorem getAlbums_cache_and_degradation_witness :
    getAlbums ⟨[], some [⟨"A1", "Trip"⟩], 100⟩ 200 false (ListingOutcome.failure "down") =
      ([⟨"A1", "Trip"⟩], ⟨[], some [⟨"A1", "Trip"⟩], 100⟩) ∧
    (getAlbums ⟨[], none, 0⟩ 200 false (ListingOutcome.failure "down")).1 = [] :=
  ⟨getAlbums_cache_and_degradation.1 ⟨[], some [⟨"A1", "Trip"⟩], 100⟩ 200
      (ListingOutcome.failure "down") [⟨"A1", "Trip"⟩] rfl (by decide),
    getAlbums_cache_and_degradation.2 ⟨[], none, 0⟩ 200 false "down"⟩

/-! ## Claim C10: a failed listing silently defeats duplicate prevention -/

/-- C10: when the remote listing fails and no cache exists, `getAlbums`
swallows the error and yields the empty list, so `findOrCreateAlbum`
treats the album set as empty and issues an album-creation call even
though an album with the same normalised title exists remotely; the
listing failure itself is never reported to the caller, whose result is
the id of the fresh creation. -/
theorem findOrCreateAlbum_listing_failure_duplicate :
    ∀ (now cacheTime : Int) (remote : List Album) (a : Album) (t p msg newId : String),
      a ∈ remote → albumMatches t a = true →
      (getAlbums ⟨[], none, cacheTime⟩ now false (ListingOutcome.failure msg)).1 = [] ∧
      (findOrCreateAlbum ⟨now, [], none, cacheTime, remote⟩ t p (some msg)
          (CreateOutcome.ok newId)).result = Except.ok newId ∧
      (findOrCreateAlbum ⟨now, [], none, cacheTime, remote⟩ t p (some msg)
          (CreateOutcome.ok newId)).createCalls = 1 := by
  intro now cacheTime remote a t p msg newId hmem hmatch
  have hwin : now - RATE_LIMIT_windowMs < now := by
    simp only [RATE_LIMIT_windowMs]
    omega
  refine ⟨?_, ?_, ?_⟩ <;>
    simp [findOrCreateAlbum, getAlbums, getAlbumsRefresh, checkRateLimit, pruneRequests,
      mkListing, World.api, World.withApi, hwin, RATE_LIMIT_maxRequests]

/-- Witness for `findOrCreateAlbum_listing_failure_duplicate`: the remote
service already holds `{id := "A1", title := "trip"}`, the listing call
fails, and a duplicate album is created anyway. -/
theorem findOrCreateAlbum_listing_failure_duplicate_witness :
    (getAlbums ⟨[], none, 0⟩ 50 false (ListingOutcome.failure "econnreset")).1 = [] ∧
    (findOrCreateAlbum ⟨50, [], none, 0, [⟨"A1", "trip"⟩]⟩ "Trip" "p1" (some "econnreset")
        (CreateOutcome.ok "A2")).result = Except.ok "A2" ∧
    (findOrCreateAlbum ⟨50, [], none, 0, [⟨"A1", "trip"⟩]⟩ "Trip" "p1" (some "econnreset")
        (CreateOutcome.ok "A2")).createCalls = 1 :=
  findOrCreateAlbum_listing_failure_duplicate 50 0 [⟨"A1", "trip"⟩] ⟨"A1", "trip"⟩ "Trip" "p1"
    "econnreset" "A2" (by decide) (by decide)


/-! ## Claim C7: staging failure taxonomy -/

/-- C7: the staging phase fails with the fetch-failed error when the
response status is not ok; with an invalid-content-type error when the
declared content type is absent or does not indicate an image — and then
no upload attempt is made; with the empty-download error when the byte
length is zero; and with the file-too-large error exactly when the byte
length exceeds 209715200 bytes (exactly 209715200 bytes is accepted). -/
theorem stageCheck_spec :
    MAX_FILE_SIZE = 209715200 ∧
    (∀ resp : FetchResponse, resp.ok = false →
      stageCheck resp =
        Except.error ("Failed to fetch image: " ++ natDecimal resp.status ++ " "
          ++ resp.statusText)) ∧
    (∀ (w : World) (tmpDir : String) (env : UploadEnv) (title albumTitle : String),
      env.resp.ok = true →
      (env.resp.contentType = none ∨
        ∃ ct, env.resp.contentType = some ct ∧ jsStartsWith ct "image/" = false) →
      (∃ msg, stageCheck env.resp = Except.error msg ∧
        strIncludes msg "Invalid content type" = true) ∧
      (uploadPhotoFromUrl w tmpDir env title albumTitle).uploadCalls = 0) ∧
    (∀ (resp : FetchResponse) (ct : String), resp.ok = true → resp.contentType = some ct →
      jsStartsWith ct "image/" = true → resp.bodyLen = 0 →
      stageCheck resp = Except.error "Downloaded file is empty") ∧
    (∀ (resp : FetchResponse) (ct : String), resp.ok = true → resp.contentType = some ct →
      jsStartsWith ct "image/" = true → 0 < resp.bodyLen →
      (stageCheck resp = Except.error "File too large. Maximum size is 200MB." ↔
        209715200 < resp.bodyLen) ∧
      (resp.bodyLen ≤ 209715200 → stageCheck resp = Except.ok ())) := by
  refine ⟨by decide, ?_, ?_, ?_, ?_⟩
  · intro resp h
    simp [stageCheck, h]
  · intro w tmpDir env title albumTitle hok hbad
    rcases hbad with hnone | ⟨ct, hct, hcts⟩
    · have hstage : stageCheck env.resp =
          Except.error "Invalid content type: null. Expected image." := by
        simp [stageCheck, hok, hnone]
      exact ⟨⟨_, hstage, by decide⟩, by simp [uploadPhotoFromUrl, hstage]⟩
    · have hstage : stageCheck env.resp =
          Except.error ("Invalid content type: " ++ ct ++ ". Expected image.") := by
        simp [stageCheck, hok, hct, hcts]
      refine ⟨⟨_, hstage, ?_⟩, by simp [uploadPhotoFromUrl, hstage]⟩
      have hdata : ("Invalid content type: " ++ ct ++ ". Expected image.").data =
          "Invalid content type: ".data ++ (ct.data ++ ". Expected image.".data) := by
        simp [String.data_append, List.append_assoc]
      simp only [strIncludes, hdata]
      exact includesCharList_of_headMatch _ _ (hasPrefixCharList_append _ _ _ (by decide))
  · intro resp ct hok hct hcts hzero
    simp [stageCheck, hok, hct, hcts, hzero]
  · intro resp ct hok hct hcts hpos
    have hne : ¬resp.bodyLen = 0 := by omega
    by_cases hbig : MAX_FILE_SIZE < resp.bodyLen
    · have hstage : stageCheck resp = Except.error "File too large. Maximum size is 200MB." := by
        simp [stageCheck, hok, hct, hcts, hne, hbig]
      have hbig9 : 209715200 < resp.bodyLen := by
        have : MAX_FILE_SIZE = 209715200 := by decide
        omega
      exact ⟨by simp [hstage, hbig9], fun hle => by omega⟩
    · have hstage : stageCheck resp = Except.ok () := by
        simp [stageCheck, hok, hct, hcts, hne, hbig]
      have hsmall : ¬209715200 < resp.bodyLen := by
        have : MAX_FILE_SIZE = 209715200 := by decide
        omega
      exact ⟨by simp [hstage, hsmall], fun _ => hstage⟩

/-- Witness for `stageCheck_spec` at concrete responses, including the
boundary case of exactly 209715200 bytes being accepted. -/
theorem stageCheck_spec_witness :
    stageCheck ⟨false, 404, "Not Found", none, 0⟩ =
      Except.error "Failed to fetch image: 404 Not Found" ∧
    (uploadPhotoFromUrl ⟨0, [], none, 0, []⟩ "/tmp"
        ⟨⟨true, 200, "OK", some "text/html", 10⟩, Except.ok (), Except.ok "p", none,
          CreateOutcome.ok "a", none, Except.ok (), Except.ok ()⟩ "t" "A").uploadCalls = 0 ∧
    stageCheck ⟨true, 200, "OK", some "image/png", 0⟩ =
      Except.error "Downloaded file is empty" ∧
    stageCheck ⟨true, 200, "OK", some "image/png", 209715200⟩ = Except.ok () ∧
    stageCheck ⟨true, 200, "OK", some "image/png", 209715201⟩ =
      Except.error "File too large. Maximum size is 200MB." :=
  ⟨(stageCheck_spec.2.1 ⟨false, 404, "Not Found", none, 0⟩ rfl).trans (by decide),
    (stageCheck_spec.2.2.1 ⟨0, [], none, 0, []⟩ "/tmp"
        ⟨⟨true, 200, "OK", some "text/html", 10⟩, Except.ok (), Except.ok "p", none,
          CreateOutcome.ok "a", none, Except.ok (), Except.ok ()⟩ "t" "A" rfl
        (Or.inr ⟨"text/html", rfl, by decide⟩)).2,
    stageCheck_spec.2.2.2.1 ⟨true, 200, "OK", some "image/png", 0⟩ "image/png" rfl rfl
      (by decide) rfl,
    (stageCheck_spec.2.2.2.2 ⟨true, 200, "OK", some "image/png", 209715200⟩ "image/png" rfl rfl
        (by decide) (by decide)).2 (by decide),
    (stageCheck_spec.2.2.2.2 ⟨true, 200, "OK", some "image/png", 209715201⟩ "image/png" rfl rfl
        (by decide) (by decide)).1.mpr (by decide)⟩

/-! ## Claim C3: guaranteed single cleanup -/

/-- C3: once staging has succeeded (so the temp path was assigned), every
exit path of `uploadPhotoFromUrl` — success or any thrown error — unlinks
the staged temp file exactly once, and the outcome of the deletion itself
never alters the observable behaviour of the run (it is only logged). -/
theorem uploadPhotoFromUrl_cleanup :
    ∀ (w : World) (tmpDir : String) (env : UploadEnv) (title albumTitle : String),
      stageCheck env.resp = Except.ok () →
      (uploadPhotoFromUrl w tmpDir env title albumTitle).unlinkCalls = 1 ∧
      ∀ u, uploadPhotoFromUrl w tmpDir
            ⟨env.resp, env.writeResult, env.uploadResult, env.listFails1, env.create,
              env.listFails2, env.addResult, u⟩ title albumTitle =
          uploadPhotoFromUrl w tmpDir env title albumTitle := by
  intro w tmpDir env title albumTitle hstage
  constructor
  · rcases env with ⟨resp, wr, up, l1, c, l2, ar, ur⟩
    simp only at hstage
    simp only [uploadPhotoFromUrl, hstage]
    cases wr with
    | error msg => rfl
    | ok u =>
      cases up with
      | error msg => rfl
      | ok photoId =>
        cases hr : (findOrCreateAlbum w albumTitle photoId l1 c).result with
        | error msg => simp [hr]
        | ok albumId =>
          simp only [hr]
          split
          · split <;> rfl
          · rfl
  · intro u
    rcases env with ⟨resp, wr, up, l1, c, l2, ar, ur⟩
    rfl

/-- Witness for `uploadPhotoFromUrl_cleanup`: a run whose upload call
throws still unlinks exactly once, and a failing unlink leaves the
outcome unchanged. -/
theorem uploadPhotoFromUrl_cleanup_witness :
    (uploadPhotoFromUrl ⟨5, [], none, 0, []⟩ "/tmp"
        ⟨⟨true, 200, "OK", some "image/jpeg", 9⟩, Except.ok (), Except.error "network down",
          none, CreateOutcome.ok "a", none, Except.ok (), Except.ok ()⟩ "t" "A").unlinkCalls
      = 1 ∧
    uploadPhotoFromUrl ⟨5, [], none, 0, []⟩ "/tmp"
        ⟨⟨true, 200, "OK", some "image/jpeg", 9⟩, Except.ok (), Except.error "network down",
          none, CreateOutcome.ok "a", none, Except.ok (), Except.error "EPERM"⟩ "t" "A" =
      uploadPhotoFromUrl ⟨5, [], none, 0, []⟩ "/tmp"
        ⟨⟨true, 200, "OK", some "image/jpeg", 9⟩, Except.ok (), Except.error "network down",
          none, CreateOutcome.ok "a", none, Except.ok (), Except.ok ()⟩ "t" "A" :=
  ⟨(uploadPhotoFromUrl_cleanup ⟨5, [], none, 0, []⟩ "/tmp"
      ⟨⟨true, 200, "OK", some "image/jpeg", 9⟩, Except.ok (), Except.error "network down",
        none, CreateOutcome.ok "a", none, Except.ok (), Except.ok ()⟩ "t" "A" (by decide)).1,
    (uploadPhotoFromUrl_cleanup ⟨5, [], none, 0, []⟩ "/tmp"
      ⟨⟨true, 200, "OK", some "image/jpeg", 9⟩, Except.ok (), Except.error "network down",
        none, CreateOutcome.ok "a", none, Except.ok (), Except.ok ()⟩ "t" "A" (by decide)).2
      (Except.error "EPERM")⟩

/-! ## Claim C9: staged file naming -/

def C9world : World := ⟨1700000000000, [], none, 0, []⟩

def C9envA : UploadEnv :=
  ⟨⟨true, 200, "OK", some "image/jpeg", 100⟩, Except.ok (), Except.ok "p1", none,
    CreateOutcome.ok "n1", none, Except.ok (), Except.ok ()⟩

def C9envB : UploadEnv :=
  ⟨⟨true, 200, "OK", some "image/jpeg", 200⟩, Except.ok (), Except.ok "p1", none,
    CreateOutcome.ok "n1", none, Except.ok (), Except.ok ()⟩

/-- C9 counterexample: the temp path is a pure function of the millisecond
timestamp and the title — it has no random component — so two distinct
concurrent invocations (here: downloading two different images) in the same
millisecond with the same title stage to the very same path. -/
theorem tempPath_collision_counterexample :
    (uploadPhotoFromUrl C9world "/tmp" C9envA "photo" "T").tempPath =
      (uploadPhotoFromUrl C9world "/tmp" C9envB "photo" "T").tempPath ∧
    (uploadPhotoFromUrl C9world "/tmp" C9envA "photo" "T").tempPath =
      some "/tmp/flickr_1700000000000_photo.jpg" ∧
    C9envA.resp.bodyLen ≠ C9envB.resp.bodyLen := by
  exact ⟨by decide, by decide, by decide⟩

/-- C9 (amended): the staged file name is the title with `.jpg` appended
exactly when the title does not already end with `.jpg`, and the temp path
embeds the millisecond timestamp next to the derived file name, so
invocations at distinct timestamps get distinct paths; the path has no
random component, so same-millisecond invocations with the same title can
collide. -/
theorem fileName_tempPath_amended :
    (∀ title, jsEndsWith title ".jpg" = true → fileName title = title) ∧
    (∀ title, jsEndsWith title ".jpg" = false → fileName title = title ++ ".jpg") ∧
    (∀ (tmpDir t : String) (n₁ n₂ : Int), 0 ≤ n₁ → 0 ≤ n₂ → n₁ ≠ n₂ →
      tempFilePath tmpDir n₁ t ≠ tempFilePath tmpDir n₂ t) := by
  refine ⟨?_, ?_, ?_⟩
  · intro title h
    simp [fileName, h]
  · intro title h
    simp [fileName, h]
  · intro tmpDir t n₁ n₂ h1 h2 hne heq
    unfold tempFilePath at heq
    have e1 := string_append_cancel_right _ _ _ heq
    have e2 := string_append_cancel_right _ _ _ e1
    have e3 := string_append_cancel_left _ _ _ e2
    exact hne (intDecimal_inj_nonneg _ _ h1 h2 e3)

/-- Witness for `fileName_tempPath_amended`. -/
theorem fileName_tempPath_amended_witness :
    fileName "pic.jpg" = "pic.jpg" ∧ fileName "pic" = "pic.jpg" ∧
    tempFilePath "/tmp" 1 "pic" ≠ tempFilePath "/tmp" 2 "pic" :=
  ⟨fileName_tempPath_amended.1 "pic.jpg" (by decide),
    fileName_tempPath_amended.2.1 "pic" (by decide),
    fileName_tempPath_amended.2.2 "/tmp" "pic" 1 2 (by decide) (by decide) (by decide)⟩

/-! ## Claim C1: add-to-album call count -/

def C1world : World := ⟨1000000000, [], none, 0, []⟩

def C1worldPre : World := ⟨1000000000, [], none, 0, [⟨"A1", "Trip"⟩]⟩

def C1env : UploadEnv :=
  ⟨⟨true, 200, "OK", some "image/jpeg", 12345⟩, Except.ok (), Except.ok "photo1",
    none, CreateOutcome.ok "albumNew", none, Except.ok (), Except.ok ()⟩

/-- C1: evaluating `uploadPhotoFromUrl` on a run in which no matching album
exists, creation succeeds and the post-creation re-listing succeeds: the
run succeeds, creates the album (`createCalls = 1`) — and still issues one
add-photo-to-album call (`addPhotoCalls = 1`), because the creation nulled
the cache, so the re-fetched album list already contains the new album and
the pre-existence check matches it.  The second half records the intended,
correct behaviour on a genuinely pre-existing album: no creation and
exactly one add call. -/
theorem uploadPhotoFromUrl_new_album_still_added :
    ((uploadPhotoFromUrl C1world "/tmp" C1env "photo" "Trip").result =
        Except.ok ⟨"photo1", "albumNew", "Trip", true⟩ ∧
      (uploadPhotoFromUrl C1world "/tmp" C1env "photo" "Trip").createCalls = 1 ∧
      (uploadPhotoFromUrl C1world "/tmp" C1env "photo" "Trip").addPhotoCalls = 1) ∧
    ((uploadPhotoFromUrl C1worldPre "/tmp" C1env "photo" "Trip").result =
        Except.ok ⟨"photo1", "A1", "Trip", true⟩ ∧
      (uploadPhotoFromUrl C1worldPre "/tmp" C1env "photo" "Trip").createCalls = 0 ∧
      (uploadPhotoFromUrl C1worldPre "/tmp" C1env "photo" "Trip").addPhotoCalls = 1) := by
  exact ⟨⟨by decide, by decide, by decide⟩, ⟨by decide, by decide, by decide⟩⟩
